import Mathlib

set_option maxRecDepth 100000

/-!
Verification of the real-time room-based messaging core of the
Innovate-Hackathon backend (`src/backend/app`).

The embedding models, directly from the Python source:

* `WebSocketService` (`app/services/websocket_service.py`): the connection
  registry (`active_connections : room -> client -> socket` and
  `client_rooms : client -> room`), `connect`, `disconnect`, and
  `broadcast_message`.  Python `dict`s are modelled as insertion-ordered
  association lists (`dlookup`/`dinsert`/`derase`), because insertion order
  is observable in `broadcast_message`'s iteration and CPython raises
  `RuntimeError` when a dict is resized while being iterated — which
  happens when `broadcast_message` calls `disconnect` on a failed peer.
* `ChatService` and `BaseService` (`app/services/chat_service.py`,
  `app/services/base_service.py`): `create`, `send_message`,
  `validate_field_length`, `sanitize_string`.
* `ChatRepository.get_messages_by_room` (`app/repositories/chat_repository.py`):
  the Mongo query `find({room_name}). sort(created_at, 1).skip(skip).limit(limit)`
  over a store modelled as a list of messages.
* the WebSocket endpoint of `app/main.py` (`websocket_endpoint`), including
  its actual wiring: a fresh `WebSocketService()` per connection, and
  `chat_service = await get_chat_service()` called directly (outside
  FastAPI's dependency-injection machinery), which leaves the `Depends`
  default parameters unresolved, so the chat service's `chat_repository`
  and `websocket_service` attributes are bare `fastapi.params.Depends`
  placeholder objects on which every method access raises `AttributeError`.

Sends on peer sockets are modelled by an oracle `sendOk : Conn -> Bool`
saying which connection handles accept a send; timestamps are a `Nat`
clock; `uuid4` identifiers are passed in as parameters.
-/

/-- Lookup in an insertion-ordered association list (Python `d[k]` / `k in d`);
returns the value of the first (and in reachable states only) binding. -/
def dlookup {α β : Type} [DecidableEq α] (l : List (α × β)) (k : α) : Option β :=
  match l with
  | [] => none
  | (k', v) :: t => if k' = k then some v else dlookup t k

/-- Python `d[k] = v`: replace the value in place if the key is present
(keeping its position, as CPython dicts do), otherwise append the new
binding at the end (new keys iterate last). -/
def dinsert {α β : Type} [DecidableEq α] (k : α) (v : β) (l : List (α × β)) :
    List (α × β) :=
  match l with
  | [] => [(k, v)]
  | (k', v') :: t => if k' = k then (k, v) :: t else (k', v') :: dinsert k v t

/-- Python `del d[k]` (plus the no-op case when the key is absent):
remove the binding for `k`. -/
def derase {α β : Type} [DecidableEq α] (k : α) (l : List (α × β)) :
    List (α × β) :=
  match l with
  | [] => []
  | (k', v) :: t => if k' = k then derase k t else (k', v) :: derase k t

theorem dlookup_dinsert {α β : Type} [DecidableEq α] (k k' : α) (v : β)
    (l : List (α × β)) :
    dlookup (dinsert k v l) k' = if k' = k then some v else dlookup l k' := by
  induction l with
  | nil =>
    by_cases h : k' = k
    · subst h; simp [dinsert, dlookup]
    · simp [dinsert, dlookup, h, Ne.symm h]
  | cons p t ih =>
    obtain ⟨a, b⟩ := p
    by_cases hak : a = k
    · subst hak
      by_cases h : k' = a
      · subst h; simp [dinsert, dlookup]
      · simp [dinsert, dlookup, h, Ne.symm h]
    · by_cases hak' : a = k'
      · subst hak'
        simp [dinsert, dlookup, hak, fun h => hak (h : a = k)]
      · simp [dinsert, dlookup, hak, hak', ih]

theorem dlookup_derase {α β : Type} [DecidableEq α] (k k' : α)
    (l : List (α × β)) :
    dlookup (derase k l) k' = if k' = k then none else dlookup l k' := by
  induction l with
  | nil =>
    by_cases h : k' = k <;> simp [derase, dlookup, h]
  | cons p t ih =>
    obtain ⟨a, b⟩ := p
    by_cases hak : a = k
    · subst hak
      by_cases h : k' = a
      · subst h; simp [derase, dlookup, ih]
      · simp [derase, dlookup, h, Ne.symm h, ih]
    · by_cases hak' : a = k'
      · subst hak'
        simp [derase, dlookup, hak, fun h => hak (h : a = k)]
      · simp [derase, dlookup, hak, hak', ih]

/-- Message kinds, from `app/domain/entities/message.py` (`class MessageType`). -/
inductive MessageType
  | text
  | file
  | system
  | ai_response
deriving DecidableEq, Repr

/-- User information carried inside a message, from
`app/domain/entities/message.py` (`@dataclass class User`). -/
structure User where
  id : String
  name : String
  avatar : Option String
deriving DecidableEq, Repr

/-- The message domain entity, from `app/domain/entities/message.py`
(`@dataclass class Message`).  Timestamps are modelled as a `Nat` clock and
the free-form metadata map as a string association list. -/
structure Message where
  id : String
  content : String
  room_name : String
  user : User
  message_type : MessageType
  created_at : Nat
  updated_at : Nat
  metadata : List (String × String)
  is_edited : Bool
  reply_to : Option String
deriving DecidableEq, Repr

/-- An opaque send-capable connection handle (the `WebSocket` object held in
`active_connections`); whether a `send_text` on it succeeds is decided by a
`sendOk : Conn → Bool` oracle passed to the operations that send. -/
abbrev Conn := Nat

/-- Outbound JSON envelopes produced by the code
(`{type: ..., data: ...}` dictionaries in `main.py` and
`websocket_service.py`).  `raw` is the payload of
`ChatService.send_message`'s own broadcast, which passes the bare
`Message` object rather than a typed envelope. -/
inductive Frame
  | previous_messages (msgs : List Message)
  | message (m : Message)
  | system_message (data : String) (timestamp : Nat)
  | user_joined (username : String) (timestamp : Nat)
  | user_left (username : String) (timestamp : Nat)
  | raw (m : Message)
deriving DecidableEq, Repr

/-- Observable events of a run: a repository insert (`insert_one` in
`BaseRepository.create`) and a successful `send_text` of a frame to one
client. -/
inductive Event
  | append (m : Message)
  | deliver (cid : String) (f : Frame)
deriving DecidableEq, Repr

/-- Errors raised by the chat layer: `validation` models the
`BaseAPIException(status_code=400)` raised by
`BaseService.validate_field_length`, `database` the `DatabaseError` from
`BaseRepository.create`, `attributeError` the Python `AttributeError`
raised when a method is accessed on an unresolved `fastapi` `Depends`
placeholder (see `main.py` calling `get_chat_service()` directly), and
`websocket` the `WebSocketError` re-raised out of a failing broadcast. -/
inductive ChatErr
  | validation (status : Nat)
  | database
  | attributeError
  | websocket
deriving DecidableEq, Repr

/-- The state of the `chat_repository` collaborator as seen from
`ChatService`: a real repository over a working database (`real true`), a
real repository whose database write fails (`real false`), or the
unresolved `Depends` placeholder that `main.py`'s direct call to
`get_chat_service()` produces (`dependsStub`). -/
inductive RepoKind
  | real (dbOk : Bool)
  | dependsStub
deriving DecidableEq, Repr

/-- The `websocket_service` attribute of a `ChatService`: a functional
service (`svc`), `None` (`noneF`, the `ChatService(chat_repo)` form used
in `test_architecture.py`), or the unresolved `Depends` placeholder
(`dependsStub`). -/
inductive WSField
  | svc
  | noneF
  | dependsStub
deriving DecidableEq, Repr

namespace BaseService

/-- Python whitespace as stripped by `str.strip()` (ASCII range;
`app/services/base_service.py`, `sanitize_string`). -/
def pyIsSpace (c : Char) : Bool :=
  c = ' ' || c = '\t' || c = '\n' || c = '\r' || c = '\x0b' || c = '\x0c'

/-- Python `str.strip()`: drop leading and trailing whitespace. -/
def pyStrip (s : String) : String :=
  String.mk (((s.data.dropWhile pyIsSpace).reverse.dropWhile pyIsSpace).reverse)

/-- Python `value.replace(char, '')`: remove every occurrence of one
character. -/
def removeChar (c : Char) (s : String) : String :=
  String.mk (s.data.filter (fun c' => c' ≠ c))

/-- The `dangerous_chars` list of `BaseService.sanitize_string`
(`app/services/base_service.py` lines 52-62). -/
def dangerous_chars : List Char :=
  ['<', '>', '"', '\'', '&', '\x00', '\r', '\n']

/-- `BaseService.sanitize_string` (`app/services/base_service.py` lines
52-62): remove each dangerous character in turn, then strip surrounding
whitespace.  The `not isinstance(value, str)` branch does not arise here
because the model is typed. -/
def sanitize_string (value : String) : String :=
  pyStrip (dangerous_chars.foldl (fun acc c => removeChar c acc) value)

/-- `BaseService.validate_field_length` (`app/services/base_service.py`
lines 32-39) raises iff the value is longer than `max_length`; this is the
raising condition. -/
def validate_field_length (value : String) (max_length : Nat) : Bool :=
  value.length > max_length

end BaseService

namespace WebSocketService

/-- The mutable state of one `WebSocketService` instance
(`app/services/websocket_service.py` lines 21-26): the two indices
`active_connections : {room_name: {client_id: websocket}}` and
`client_rooms : {client_id: room_name}`. -/
structure WSState where
  active_connections : List (String × List (String × Conn))
  client_rooms : List (String × String)
deriving DecidableEq, Repr

/-- A freshly constructed `WebSocketService()`: both indices empty. -/
def initState : WSState :=
  { active_connections := [], client_rooms := [] }

/-- `WebSocketService.connect` (`websocket_service.py` lines 28-53):
accept the socket (modelled as succeeding), create the room entry if
absent, store the connection under the room, and record the reverse
mapping.  The method returns `True`; there is no duplicate check — an
existing entry for the same client id is silently overwritten. -/
def connect (st : WSState) (websocket : Conn) (client_id room_name : String) :
    WSState :=
  let inner := (dlookup st.active_connections room_name).getD []
  { active_connections :=
      dinsert room_name (dinsert client_id websocket inner) st.active_connections,
    client_rooms := dinsert client_id room_name st.client_rooms }

/-- `WebSocketService.disconnect` (`websocket_service.py` lines 55-80):
look up the client's room in the reverse index; if it is truthy (non-empty
string — Python `if room_name and ...`) and present in
`active_connections`, delete the client from it and delete the room when
it becomes empty; finally delete the reverse mapping.  Idempotent, never
raises. -/
def disconnect (st : WSState) (client_id : String) : WSState :=
  let ac :=
    match dlookup st.client_rooms client_id with
    | some room_name =>
      if room_name ≠ "" then
        match dlookup st.active_connections room_name with
        | some inner =>
          let inner' := derase client_id inner
          if inner'.isEmpty then derase room_name st.active_connections
          else dinsert room_name inner' st.active_connections
        | none => st.active_connections
      else st.active_connections
    | none => st.active_connections
  { active_connections := ac, client_rooms := derase client_id st.client_rooms }

/-- Snapshot of the clients currently stored under a room (empty when the
room is absent). -/
def roomClients (st : WSState) (room_name : String) : List (String × Conn) :=
  (dlookup st.active_connections room_name).getD []

/-- Current size of the room's inner dict; used to model CPython's
iterator check `di_used != ma_used`, which raises `RuntimeError` when the
dict being iterated changed size. -/
def roomSize (st : WSState) (room_name : String) : Nat :=
  (roomClients st room_name).length

/-- The loop guard `if exclude_client and client_id == exclude_client:`
of `broadcast_message`: because of Python truthiness, a `None` or
empty-string `exclude_client` disables exclusion. -/
def skipClient (exclude_client : Option String) (client_id : String) : Bool :=
  match exclude_client with
  | none => false
  | some x => x ≠ "" && client_id = x

/-- Result of a `broadcast_message` call: the returned `sent_count`, or
the `WebSocketError` raised by the outer `except` handler. -/
inductive BResult
  | ok (sent : Nat)
  | wsError
deriving DecidableEq, Repr

/-- The `for client_id, connection in self.active_connections[room_name].items()`
loop of `broadcast_message` (`websocket_service.py` lines 101-114).
`entries` is the room's inner dict at loop entry; `mutated` records
whether that dict has changed size since iteration began, in which case
the next call to the iterator raises `RuntimeError` (caught by the outer
handler, which raises `WebSocketError`).  A failing `send_text` is caught
per-connection and answered with `await self.disconnect(client_id)`,
which deletes the failed client from the very dict being iterated. -/
def bcastLoop (sendOk : Conn → Bool) (room_name : String)
    (exclude_client : Option String) (payload : Frame) :
    List (String × Conn) → WSState → Bool → Nat → BResult × WSState × List Event
  | [], st, mutated, sent =>
    (if mutated then .wsError else .ok sent, st, [])
  | (client_id, connection) :: rest, st, mutated, sent =>
    if mutated then (.wsError, st, [])
    else if skipClient exclude_client client_id then
      bcastLoop sendOk room_name exclude_client payload rest st false sent
    else if sendOk connection then
      match bcastLoop sendOk room_name exclude_client payload rest st false (sent + 1) with
      | (r, st', evs) => (r, st', .deliver client_id payload :: evs)
    else
      let st' := disconnect st client_id
      bcastLoop sendOk room_name exclude_client payload rest st'
        (decide (roomSize st' room_name ≠ roomSize st room_name)) sent

/-- `WebSocketService.broadcast_message` (`websocket_service.py` lines
92-126): return `0` when the room is unknown, otherwise iterate the
room's inner dict sending `payload` to every non-excluded client.  The
final state and the successful-delivery events are returned alongside the
result so that callers observe the mutations performed before any raised
`WebSocketError`. -/
def broadcast_message (sendOk : Conn → Bool) (st : WSState)
    (room_name : String) (payload : Frame) (exclude_client : Option String) :
    BResult × WSState × List Event :=
  match dlookup st.active_connections room_name with
  | none => (.ok 0, st, [])
  | some inner => bcastLoop sendOk room_name exclude_client payload inner st false 0

end WebSocketService

namespace ChatRepository

/-- Stable ascending insertion (by `created_at`) used to model the Mongo
`sort("created_at", 1)` below. -/
def insertAsc (m : Message) : List Message → List Message
  | [] => [m]
  | x :: t =>
    if x.created_at ≤ m.created_at then x :: insertAsc m t else m :: x :: t

/-- Messages of the store sorted ascending by `created_at` (stable). -/
def sortByCreatedAsc (l : List Message) : List Message :=
  l.foldl (fun acc m => insertAsc m acc) []

/-- `ChatRepository.get_messages_by_room` (`app/repositories/chat_repository.py`
lines 67-82): `find({"room_name": room_name}).sort("created_at", 1)
.skip(skip).limit(limit)` — the page starting `skip` in from the OLDEST
message, ascending by creation time. -/
def get_messages_by_room (store : List Message) (room_name : String)
    (limit skip : Nat) : List Message :=
  (((store.filter (fun m => m.room_name == room_name)) |> sortByCreatedAsc).drop
      skip).take limit

end ChatRepository

namespace ChatService

/-- The `data` dict passed to `ChatService.create`; the fields required by
`validate_required_fields(data, ['content', 'room_name', 'user'])` are
present by construction (as they are on the `send_message` path, which
always builds them). -/
structure CreateData where
  content : String
  room_name : String
  userId : Option String
  userName : String
  userAvatar : Option String
  message_type : MessageType
  metadata : List (String × String)
  reply_to : Option String
deriving DecidableEq, Repr

/-- `ChatService.create` (`app/services/chat_service.py` lines 25-69):
validate the content length (`validate_field_length(content, 'content',
1000)` raises a 400 `BaseAPIException` before anything is persisted),
sanitize content and user name, build the `Message` with server-assigned
id and timestamps (`mid`, `uid` stand in for `uuid4`, `now` for
`datetime.now()`), then call `chat_repository.create`, whose outcome
depends on the repository collaborator (`RepoKind`).  Returns the raised
error or the message, the resulting store, and the insert event. -/
def create (rk : RepoKind) (mid uid : String) (now : Nat) (data : CreateData)
    (store : List Message) :
    Except ChatErr Message × List Message × List Event :=
  if BaseService.validate_field_length data.content 1000 then
    (.error (.validation 400), store, [])
  else
    let content := BaseService.sanitize_string data.content
    let user : User :=
      { id := data.userId.getD uid,
        name := BaseService.sanitize_string data.userName,
        avatar := data.userAvatar }
    let m : Message :=
      { id := mid, content := content, room_name := data.room_name,
        user := user, message_type := data.message_type, created_at := now,
        updated_at := now, metadata := data.metadata, is_edited := false,
        reply_to := data.reply_to }
    match rk with
    | .real true => (.ok m, store ++ [m], [.append m])
    | .real false => (.error .database, store, [])
    | .dependsStub => (.error .attributeError, store, [])

/-- `ChatService.send_message` (`app/services/chat_service.py` lines
239-276): build the `message_data` dict from the arguments, persist via
`create`, and only then — if `self.websocket_service` is truthy —
broadcast the bare persisted `Message` to the room with no exclusion.  A
`create` failure re-raises before any broadcast is attempted; a
`websocket_service` that is an unresolved `Depends` placeholder raises
`AttributeError` at the broadcast call. -/
def send_message (rk : RepoKind) (wf : WSField) (sendOk : Conn → Bool)
    (mid uid : String) (now : Nat) (content room_name : String) (user : User)
    (message_type : MessageType) (metadata : List (String × String))
    (store : List Message) (ws : WebSocketService.WSState) :
    Except ChatErr Message × List Message × WebSocketService.WSState × List Event :=
  let data : CreateData :=
    { content := content, room_name := room_name, userId := some user.id,
      userName := user.name, userAvatar := user.avatar,
      message_type := message_type, metadata := metadata, reply_to := none }
  match create rk mid uid now data store with
  | (.error e, store', evs) => (.error e, store', ws, evs)
  | (.ok m, store', evs) =>
    match wf with
    | .noneF => (.ok m, store', ws, evs)
    | .dependsStub => (.error .attributeError, store', ws, evs)
    | .svc =>
      match WebSocketService.broadcast_message sendOk ws room_name (.raw m) none with
      | (.ok _, ws', bevs) => (.ok m, store', ws', evs ++ bevs)
      | (.wsError, ws', bevs) => (.error .websocket, store', ws', evs ++ bevs)

end ChatService

/-- One inbound interaction of the `while True` receive loop in
`main.py`'s `websocket_endpoint`: a decoded JSON frame
`{content, type}` (an absent `type` key is modelled by the caller passing
`"text"`, matching `message_data.get("type", "text")`), an undecodable
text frame (`json.JSONDecodeError`), or the transport raising
`WebSocketDisconnect` from `receive_text`. -/
inductive Inbound
  | frame (content : String) (mtypeStr : String)
  | badJson
  | closed
deriving DecidableEq, Repr

/-- Outcome of one pass of the receive loop body: `continue` or `break`. -/
inductive LoopOut
  | cont
  | brk
deriving DecidableEq, Repr

/-- The per-connection state of one `websocket_endpoint` invocation: its
own freshly constructed `WebSocketService` instance (`main.py` line 126 —
the registry is NOT shared between connections), the path parameters, and
whether the session is still running its receive loop. -/
structure Session where
  ws : WebSocketService.WSState
  clientId : String
  room : String
  username : String
  alive : Bool
deriving DecidableEq, Repr

/-- `MessageType(message_data.get("type", "text"))`: an unknown string
raises `ValueError` (modelled as `none`). -/
def parseMessageType : String → Option MessageType
  | "text" => some .text
  | "file" => some .file
  | "system" => some .system
  | "ai_response" => some .ai_response
  | _ => none

/-- The join phase of `websocket_endpoint` (`main.py` lines 126-148):
construct a fresh `WebSocketService`, `connect`, broadcast the
`user_joined` notice (no exclusion), then try to send the room history.
Because `chat_service = await get_chat_service()` is called directly, its
`chat_repository` attribute is an unresolved `Depends` placeholder and
`get_messages_by_room` raises `AttributeError`; the surrounding
`try/except` logs and swallows it, so no `previous_messages` frame is
ever sent.  If the join broadcast itself raises, the outer handler runs
`disconnect` followed by `notify_user_left`. -/
def websocket_endpoint_join (sendOk : Conn → Bool) (websocket : Conn)
    (client_id room_name username : String) (now : Nat) :
    Session × List Event :=
  let ws0 := WebSocketService.connect WebSocketService.initState websocket
    client_id room_name
  match WebSocketService.broadcast_message sendOk ws0 room_name
      (.user_joined username now) none with
  | (.ok _, ws1, evs1) =>
    ({ ws := ws1, clientId := client_id, room := room_name,
       username := username, alive := true }, evs1)
  | (.wsError, ws1, evs1) =>
    let ws2 := WebSocketService.disconnect ws1 client_id
    match WebSocketService.broadcast_message sendOk ws2 room_name
        (.user_left username now) none with
    | (_, ws3, evs2) =>
      ({ ws := ws3, clientId := client_id, room := room_name,
         username := username, alive := false }, evs1 ++ evs2)

/-- One pass of the receive loop of `websocket_endpoint` (`main.py` lines
151-190).  `json.JSONDecodeError` and falsy content `continue`; every
other exception — including `WebSocketDisconnect` raised by
`receive_text`, a `ValueError` from `MessageType(...)`, and the
`AttributeError` that `chat_service.send_message` raises because its
repository is an unresolved `Depends` placeholder — is caught by
`except Exception: break`.  On a successful send the persisted message
would be re-broadcast on the session's own `WebSocketService` excluding
the sender. -/
def websocket_endpoint_step (sendOk : Conn → Bool) (mid uid : String)
    (now : Nat) (sess : Session) (store : List Message) (inb : Inbound) :
    LoopOut × Session × List Message × List Event :=
  match inb with
  | .badJson => (.cont, sess, store, [])
  | .closed => (.brk, sess, store, [])
  | .frame content mtypeStr =>
    if content = "" then (.cont, sess, store, [])
    else
      match parseMessageType mtypeStr with
      | none => (.brk, sess, store, [])
      | some mt =>
        let user : User := { id := sess.clientId, name := sess.username, avatar := none }
        match ChatService.send_message .dependsStub .dependsStub sendOk mid uid
            now content sess.room user mt [] store sess.ws with
        | (.error _, store', ws', evs) =>
          (.brk, { sess with ws := ws' }, store', evs)
        | (.ok m, store', ws', evs) =>
          match WebSocketService.broadcast_message sendOk ws' sess.room
              (.message m) (some sess.clientId) with
          | (.ok _, ws2, bevs) =>
            (.cont, { sess with ws := ws2 }, store', evs ++ bevs)
          | (.wsError, ws2, bevs) =>
            (.brk, { sess with ws := ws2 }, store', evs ++ bevs)

/-- The receive loop run over a finite schedule of inbound interactions;
returns the session, the store, the events, and whether the loop exited
via `break` (as opposed to the schedule running out while the session is
still connected). -/
def websocket_endpoint_loop (sendOk : Conn → Bool) (mid uid : String)
    (now : Nat) :
    List Inbound → Session → List Message →
      Session × List Message × List Event × Bool
  | [], sess, store => (sess, store, [], false)
  | inb :: rest, sess, store =>
    match websocket_endpoint_step sendOk mid uid now sess store inb with
    | (.cont, sess', store', evs) =>
      match websocket_endpoint_loop sendOk mid uid now rest sess' store' with
      | (s2, st2, evs2, b) => (s2, st2, evs ++ evs2, b)
    | (.brk, sess', store', evs) => (sess', store', evs, true)

/-- A full `websocket_endpoint` invocation (`main.py` lines 117-199) over
a schedule of inbound interactions.  When the loop exits via `break`, the
function falls off the end of the outer `try` block, so NEITHER
`except WebSocketDisconnect` NOR `except Exception` runs: no
`disconnect`, no `user_left` notice.  The cleanup handlers are reachable
only from exceptions raised outside the receive loop (modelled in
`websocket_endpoint_join`). -/
def websocket_endpoint_session (sendOk : Conn → Bool) (websocket : Conn)
    (client_id room_name username : String) (now : Nat) (mid uid : String)
    (store : List Message) (inbounds : List Inbound) :
    Session × List Message × List Event :=
  match websocket_endpoint_join sendOk websocket client_id room_name username now with
  | (sess, evs0) =>
    if sess.alive then
      match websocket_endpoint_loop sendOk mid uid now inbounds sess store with
      | (sess', store', evs1, _) => (sess', store', evs0 ++ evs1)
    else (sess, store, evs0)

/-- Claim C9: a create-message request whose content exceeds the
1000-character maximum fails with the 400 validation error raised by
`validate_field_length` before any persistence is attempted — the store
is returned unchanged and no insert event occurs, for every repository
collaborator. -/
theorem c9_overlong_content_rejected (rk : RepoKind) (mid uid : String)
    (now : Nat) (data : ChatService.CreateData) (store : List Message)
    (h : 1000 < data.content.length) :
    ChatService.create rk mid uid now data store =
      (.error (.validation 400), store, []) := by
  simp [ChatService.create, BaseService.validate_field_length, h]

/-- Witness for C9: a concrete 1001-character content is rejected with
the store unchanged. -/
theorem c9_overlong_content_rejected_witness :
    1000 < (String.mk (List.replicate 1001 'a')).length ∧
      ChatService.create (.real true) "m" "u" 0
          { content := String.mk (List.replicate 1001 'a'),
            room_name := "lobby", userId := some "u", userName := "U",
            userAvatar := none, message_type := .text, metadata := [],
            reply_to := none } [] =
        (.error (.validation 400), [], []) :=
  ⟨by decide, c9_overlong_content_rejected (.real true) "m" "u" 0 _ [] (by decide)⟩

/-- Shape of `ChatService.create`: it either persists exactly the
constructed message (appending it to the store with an insert event) or
raises, leaving the store unchanged with no event. -/
theorem create_cases (rk : RepoKind) (mid uid : String) (now : Nat)
    (data : ChatService.CreateData) (store : List Message) :
    (∃ m, ChatService.create rk mid uid now data store =
        (.ok m, store ++ [m], [.append m]) ∧
        m.content = BaseService.sanitize_string data.content) ∨
    (∃ e, ChatService.create rk mid uid now data store =
        (.error e, store, [])) := by
  by_cases hv : BaseService.validate_field_length data.content 1000
  · right
    refine ⟨.validation 400, ?_⟩
    simp [ChatService.create, hv]
  · cases rk with
    | real b =>
      cases b with
      | true =>
        left
        refine ⟨{ id := mid, content := BaseService.sanitize_string data.content,
                  room_name := data.room_name,
                  user := { id := data.userId.getD uid,
                            name := BaseService.sanitize_string data.userName,
                            avatar := data.userAvatar },
                  message_type := data.message_type, created_at := now,
                  updated_at := now, metadata := data.metadata,
                  is_edited := false, reply_to := data.reply_to }, ?_, rfl⟩
        simp [ChatService.create, hv]
      | false =>
        right
        refine ⟨.database, ?_⟩
        simp [ChatService.create, hv]
    | dependsStub =>
      right
      refine ⟨.attributeError, ?_⟩
      simp [ChatService.create, hv]

/-- Claim C10: whenever `ChatService.create` succeeds (hence also on the
WebSocket send path, which goes through it), the persisted message's
content is the sanitized form of the submitted content — dangerous
characters removed and surrounding whitespace stripped — not the
submitted string itself. -/
theorem c10_content_sanitized (rk : RepoKind) (mid uid : String) (now : Nat)
    (data : ChatService.CreateData) (store store' : List Message)
    (m : Message) (evs : List Event)
    (h : ChatService.create rk mid uid now data store = (.ok m, store', evs)) :
    m.content = BaseService.sanitize_string data.content ∧
      store' = store ++ [m] := by
  rcases create_cases rk mid uid now data store with ⟨m', hm', hc⟩ | ⟨e, he⟩
  · rw [hm'] at h
    simp only [Prod.mk.injEq, Except.ok.injEq] at h
    obtain ⟨h1, h2, h3⟩ := h
    subst h1
    exact ⟨hc, h2.symm⟩
  · rw [he] at h
    simp at h

/-- Concrete input for the C10 witness: content with surrounding
whitespace and an HTML-ish tag. -/
def c10data : ChatService.CreateData :=
  { content := "  hi<b>  ", room_name := "lobby", userId := some "a",
    userName := "Alice", userAvatar := none, message_type := .text,
    metadata := [], reply_to := none }

/-- The message the code persists for `c10data`. -/
def c10msg : Message :=
  { id := "m", content := "hib", room_name := "lobby",
    user := { id := "a", name := "Alice", avatar := none },
    message_type := .text, created_at := 3, updated_at := 3, metadata := [],
    is_edited := false, reply_to := none }

/-- Witness for C10: on a concrete input the stored content is the
sanitized form and differs from the submitted content. -/
theorem c10_content_sanitized_witness :
    c10msg.content = BaseService.sanitize_string c10data.content ∧
      c10msg.content ≠ c10data.content :=
  ⟨(c10_content_sanitized (.real true) "m" "u" 3 c10data [] [c10msg] c10msg
      [.append c10msg] (by rfl)).1, by decide⟩

/-- Claim C5 counterexample: with client "c" already registered in room
"r" (holding connection handle 1), a second `connect` for the same client
and room does not fail — there is no `DuplicateClientError` anywhere in
the code — and the new connection IS accepted: the stored handle is
replaced by 2. -/
theorem c5_counterexample :
    WebSocketService.connect
        (WebSocketService.connect WebSocketService.initState 1 "c" "r")
        2 "c" "r" =
      { active_connections := [("r", [("c", 2)])],
        client_rooms := [("c", "r")] } := by
  rfl

/-- Claim C5 (amended): when `client_id` is already registered in
`room_name`, a further `connect` for the same client and room succeeds
(no error is raised), replaces that client's stored connection handle in
place, and leaves every other client's entry, every other room, and the
reverse index unchanged. -/
theorem c5_duplicate_connect_overwrites (st : WebSocketService.WSState)
    (websocket websocket' : Conn) (client_id room_name : String)
    (inner : List (String × Conn))
    (hroom : dlookup st.active_connections room_name = some inner)
    (hcid : dlookup inner client_id = some websocket) :
    dlookup (WebSocketService.connect st websocket' client_id room_name).active_connections
        room_name = some (dinsert client_id websocket' inner) ∧
      dlookup (dinsert client_id websocket' inner) client_id = some websocket' ∧
      (∀ c, c ≠ client_id →
        dlookup (dinsert client_id websocket' inner) c = dlookup inner c) ∧
      (∀ r, r ≠ room_name →
        dlookup (WebSocketService.connect st websocket' client_id room_name).active_connections r =
          dlookup st.active_connections r) ∧
      dlookup (WebSocketService.connect st websocket' client_id room_name).client_rooms
        client_id = some room_name := by
  refine ⟨?_, ?_, ?_, ?_, ?_⟩
  · simp [WebSocketService.connect, hroom, dlookup_dinsert]
  · simp [dlookup_dinsert]
  · intro c hcne
    simp [dlookup_dinsert, hcne]
  · intro r hrne
    simp [WebSocketService.connect, dlookup_dinsert, hrne]
  · simp [WebSocketService.connect, dlookup_dinsert]

/-- Witness for C5: the amended behaviour at a concrete registry state
(client "c" registered in room "r" with handle 5, reconnecting with
handle 6). -/
theorem c5_duplicate_connect_overwrites_witness :
    dlookup (WebSocketService.connect
        (WebSocketService.connect WebSocketService.initState 5 "c" "r")
        6 "c" "r").active_connections "r" = some (dinsert "c" 6 [("c", 5)]) ∧
      dlookup (dinsert "c" (6 : Conn) [("c", 5)]) "c" = some 6 :=
  ⟨(c5_duplicate_connect_overwrites
      (WebSocketService.connect WebSocketService.initState 5 "c" "r")
      5 6 "c" "r" [("c", 5)] rfl rfl).1,
   (c5_duplicate_connect_overwrites
      (WebSocketService.connect WebSocketService.initState 5 "c" "r")
      5 6 "c" "r" [("c", 5)] rfl rfl).2.1⟩

/-- Registry state for the C2 evaluation: clients "c1" (handle 11) and
"c2" (handle 12) connected to room "r", in that insertion order. -/
def c2state : WebSocketService.WSState :=
  WebSocketService.connect
    (WebSocketService.connect WebSocketService.initState 11 "c1" "r")
    12 "c2" "r"

/-- Claim C2 evaluation (code bug): broadcasting to room "r" when the
send to "c1" fails and the send to "c2" would succeed.  The failed peer
IS removed from both indices, but `disconnect` resizes the dict being
iterated, so the next iteration raises `RuntimeError`, caught by the
outer handler which raises `WebSocketError`: the call returns no count,
delivers nothing to "c2" (no deliver event), and the exception propagates
to the caller — refuting isolation of per-connection failures. -/
theorem c2_broadcast_failure_eval :
    WebSocketService.broadcast_message (fun c => c != 11) c2state "r"
        (.system_message "x" 0) none =
      (.wsError,
       { active_connections := [("r", [("c2", 12)])],
         client_rooms := [("c2", "r")] },
       []) := by
  rfl

/-- When every send attempted by the broadcast loop succeeds, the loop
delivers exactly to the non-skipped entries, in order, leaves the state
untouched, and counts them on top of `sent`. -/
theorem bcastLoop_all_ok (sendOk : Conn → Bool) (room_name : String)
    (exclude_client : Option String) (payload : Frame) :
    ∀ (entries : List (String × Conn)) (st : WebSocketService.WSState)
      (sent : Nat),
      (∀ p ∈ entries,
        WebSocketService.skipClient exclude_client p.1 = false →
          sendOk p.2 = true) →
      WebSocketService.bcastLoop sendOk room_name exclude_client payload
          entries st false sent =
        (.ok (sent + (entries.filter
            (fun p => !WebSocketService.skipClient exclude_client p.1)).length),
         st,
         (entries.filter
            (fun p => !WebSocketService.skipClient exclude_client p.1)).map
           (fun p => Event.deliver p.1 payload)) := by
  intro entries
  induction entries with
  | nil =>
    intro st sent h
    simp [WebSocketService.bcastLoop]
  | cons p rest ih =>
    intro st sent h
    obtain ⟨cid, conn⟩ := p
    by_cases hskip : WebSocketService.skipClient exclude_client cid = true
    · have := ih st sent (fun q hq => h q (List.mem_cons_of_mem _ hq))
      simp [WebSocketService.bcastLoop, hskip, this]
    · have hsend : sendOk conn = true :=
        h (cid, conn) (List.mem_cons_self _ _) (by simpa using hskip)
      have := ih st (sent + 1) (fun q hq => h q (List.mem_cons_of_mem _ hq))
      simp [WebSocketService.bcastLoop, hskip, hsend, this, Nat.add_assoc,
        Nat.add_comm 1]

/-- Claim C7 (amended): when every attempted send succeeds,
`broadcast_message` delivers exactly to the currently-registered clients
of the room that the code's exclusion guard does not skip — every client
other than `exclude_client` when that is a non-empty id (a `None` or
empty-string exclude disables exclusion) — never delivers to the excluded
client, leaves the registry unchanged, and returns the count of those
successful deliveries.  (When a send fails, the call instead raises; see
the broadcast-failure evaluation.) -/
theorem c7_broadcast_delivery (sendOk : Conn → Bool)
    (st : WebSocketService.WSState) (room_name : String) (payload : Frame)
    (exclude_client : Option String)
    (h : ∀ p ∈ WebSocketService.roomClients st room_name,
        WebSocketService.skipClient exclude_client p.1 = false →
          sendOk p.2 = true) :
    WebSocketService.broadcast_message sendOk st room_name payload
        exclude_client =
      (.ok ((WebSocketService.roomClients st room_name).filter
          (fun p => !WebSocketService.skipClient exclude_client p.1)).length,
       st,
       ((WebSocketService.roomClients st room_name).filter
          (fun p => !WebSocketService.skipClient exclude_client p.1)).map
         (fun p => Event.deliver p.1 payload)) := by
  unfold WebSocketService.broadcast_message
  cases hx : dlookup st.active_connections room_name with
  | none => simp [WebSocketService.roomClients, hx]
  | some inner =>
    have hr : WebSocketService.roomClients st room_name = inner := by
      simp [WebSocketService.roomClients, hx]
    rw [hr] at h
    have := bcastLoop_all_ok sendOk room_name exclude_client payload inner st 0 h
    simpa [hr] using this

/-- Registry state for the C7 witness: clients "c1", "c2", "c3" with
handles 21, 22, 23 in room "r". -/
def c7wState : WebSocketService.WSState :=
  WebSocketService.connect
    (WebSocketService.connect
      (WebSocketService.connect WebSocketService.initState 21 "c1" "r")
      22 "c2" "r")
    23 "c3" "r"

/-- Witness for C7: with all sends succeeding and "c2" excluded, the
broadcast delivers exactly to "c1" and "c3" and returns 2. -/
theorem c7_broadcast_delivery_witness :
    WebSocketService.broadcast_message (fun _ => true) c7wState "r"
        (.system_message "hello" 1) (some "c2") =
      (.ok 2, c7wState,
       [.deliver "c1" (.system_message "hello" 1),
        .deliver "c3" (.system_message "hello" 1)]) := by
  have h := c7_broadcast_delivery (fun _ => true) c7wState "r"
    (.system_message "hello" 1) (some "c2") (by decide)
  exact h

/-- Registry state for the C7 counterexample: clients "d1", "d2", "d3"
with handles 31, 32, 33 in room "r". -/
def c7cState : WebSocketService.WSState :=
  WebSocketService.connect
    (WebSocketService.connect
      (WebSocketService.connect WebSocketService.initState 31 "d1" "r")
      32 "d2" "r")
    33 "d3" "r"

/-- Claim C7 counterexample: with "d3" excluded and the send to "d1"
failing, the call raises `WebSocketError` instead of returning a count,
and delivery to "d2" is never attempted (no deliver events) — refuting
the claim that delivery is attempted to every non-excluded client and a
count returned on every call. -/
theorem c7_counterexample :
    WebSocketService.broadcast_message (fun c => c != 31) c7cState "r"
        (.system_message "y" 2) (some "d3") =
      (.wsError,
       { active_connections := [("r", [("d2", 32), ("d3", 33)])],
         client_rooms := [("d2", "r"), ("d3", "r")] },
       []) := by
  rfl

/-- Every event emitted by the broadcast loop is a delivery of the fixed
payload of that call. -/
theorem bcastLoop_events_shape (sendOk : Conn → Bool) (room_name : String)
    (exclude_client : Option String) (payload : Frame) :
    ∀ (entries : List (String × Conn)) (st : WebSocketService.WSState)
      (mutated : Bool) (sent : Nat) (e : Event),
      e ∈ (WebSocketService.bcastLoop sendOk room_name exclude_client payload
          entries st mutated sent).2.2 →
      ∃ cid, e = Event.deliver cid payload := by
  intro entries
  induction entries with
  | nil =>
    intro st mutated sent e he
    simp [WebSocketService.bcastLoop] at he
  | cons p rest ih =>
    intro st mutated sent e he
    obtain ⟨cid, conn⟩ := p
    by_cases hmut : mutated = true
    · simp [WebSocketService.bcastLoop, hmut] at he
    · simp only [Bool.not_eq_true] at hmut
      subst hmut
      by_cases hskip : WebSocketService.skipClient exclude_client cid = true
      · rw [WebSocketService.bcastLoop] at he
        simp only [if_neg Bool.false_ne_true, if_pos hskip] at he
        exact ih st false sent e he
      · by_cases hsend : sendOk conn = true
        · rw [WebSocketService.bcastLoop] at he
          simp only [if_neg Bool.false_ne_true, if_neg hskip, if_pos hsend] at he
          rcases hx : WebSocketService.bcastLoop sendOk room_name
              exclude_client payload rest st false (sent + 1) with ⟨r, st', evs⟩
          rw [hx] at he
          simp at he
          rcases he with he | he
          · exact ⟨cid, he⟩
          · have := ih st false (sent + 1) e (by rw [hx]; exact he)
            exact this
        · rw [WebSocketService.bcastLoop] at he
          simp only [if_neg Bool.false_ne_true, if_neg hskip, if_neg hsend] at he
          exact ih _ _ sent e he

/-- Every event of a `broadcast_message` call is a delivery of its
payload. -/
theorem broadcast_events_shape (sendOk : Conn → Bool)
    (st : WebSocketService.WSState) (room_name : String) (payload : Frame)
    (exclude_client : Option String) (e : Event)
    (he : e ∈ (WebSocketService.broadcast_message sendOk st room_name payload
        exclude_client).2.2) :
    ∃ cid, e = Event.deliver cid payload := by
  unfold WebSocketService.broadcast_message at he
  cases hx : dlookup st.active_connections room_name with
  | none => rw [hx] at he; simp at he
  | some inner =>
    rw [hx] at he
    exact bcastLoop_events_shape sendOk room_name exclude_client payload
      inner st false 0 e he

/-- Claim C4: persist-then-broadcast ordering of
`ChatService.send_message`, for every repository collaborator, every
`websocket_service` field, and every send oracle.  Whenever the run's
event trace delivers a frame at position `i`, that frame is the persisted
message itself, the store append for it is the FIRST event of the trace
(strictly earlier than the delivery), and the message is contained in the
resulting store (hence retrievable by the room-history query for its
room).  In particular a failed persistence yields no delivery at all. -/
theorem c4_persist_before_broadcast (rk : RepoKind) (wf : WSField)
    (sendOk : Conn → Bool) (mid uid : String) (now : Nat)
    (content room_name : String) (user : User) (message_type : MessageType)
    (metadata : List (String × String)) (store : List Message)
    (ws : WebSocketService.WSState) (res : Except ChatErr Message)
    (store' : List Message) (ws' : WebSocketService.WSState) (tr : List Event)
    (hrun : ChatService.send_message rk wf sendOk mid uid now content
        room_name user message_type metadata store ws = (res, store', ws', tr))
    (i : Nat) (cid : String) (f : Frame)
    (hi : tr.get? i = some (.deliver cid f)) :
    ∃ m, f = Frame.raw m ∧ tr.get? 0 = some (.append m) ∧ 0 < i ∧
      m ∈ store' := by
  unfold ChatService.send_message at hrun
  dsimp only [] at hrun
  rcases create_cases rk mid uid now
      { content := content, room_name := room_name, userId := some user.id,
        userName := user.name, userAvatar := user.avatar,
        message_type := message_type, metadata := metadata,
        reply_to := none } store with ⟨m, hm, _⟩ | ⟨e, he⟩
  · rw [hm] at hrun
    dsimp only [] at hrun
    cases wf with
    | noneF =>
      simp only [Prod.mk.injEq] at hrun
      obtain ⟨-, -, -, htr⟩ := hrun
      subst htr
      cases i with
      | zero => simp at hi
      | succ j => simp at hi
    | dependsStub =>
      simp only [Prod.mk.injEq] at hrun
      obtain ⟨-, -, -, htr⟩ := hrun
      subst htr
      cases i with
      | zero => simp at hi
      | succ j => simp at hi
    | svc =>
      rcases hb : WebSocketService.broadcast_message sendOk ws room_name
          (.raw m) none with ⟨r, ws2, bevs⟩
      rw [hb] at hrun
      have hshape : ∀ e ∈ bevs, ∃ c, e = Event.deliver c (Frame.raw m) := by
        intro e hee
        exact broadcast_events_shape sendOk ws room_name (.raw m) none e
          (by rw [hb]; exact hee)
      cases r with
      | ok n =>
        simp only [Prod.mk.injEq] at hrun
        obtain ⟨-, hstore, -, htr⟩ := hrun
        subst htr
        cases i with
        | zero => simp at hi
        | succ j =>
          simp only [List.cons_append, List.nil_append, List.get?] at hi
          obtain ⟨c, hc⟩ := hshape _ (List.get?_mem hi)
          refine ⟨m, ?_, by simp, Nat.succ_pos j, ?_⟩
          · injection hc with hc1 hc2
          · rw [← hstore]; simp
      | wsError =>
        simp only [Prod.mk.injEq] at hrun
        obtain ⟨-, hstore, -, htr⟩ := hrun
        subst htr
        cases i with
        | zero => simp at hi
        | succ j =>
          simp only [List.cons_append, List.nil_append, List.get?] at hi
          obtain ⟨c, hc⟩ := hshape _ (List.get?_mem hi)
          refine ⟨m, ?_, by simp, Nat.succ_pos j, ?_⟩
          · injection hc with hc1 hc2
          · rw [← hstore]; simp
  · rw [he] at hrun
    simp only [Prod.mk.injEq] at hrun
    obtain ⟨-, -, -, htr⟩ := hrun
    subst htr
    simp at hi

/-- Registry for the C4 witness: peer "b" (handle 7) is connected to room
"lobby". -/
def c4ws : WebSocketService.WSState :=
  WebSocketService.connect WebSocketService.initState 7 "b" "lobby"

/-- The message persisted in the C4 witness run. -/
def c4msg : Message :=
  { id := "m1", content := "hi", room_name := "lobby",
    user := { id := "a", name := "Alice", avatar := none },
    message_type := .text, created_at := 5, updated_at := 5, metadata := [],
    is_edited := false, reply_to := none }

/-- Witness for C4: a concrete `send_message` run with a working
repository and one reachable peer produces the trace
`[append c4msg, deliver "b" (raw c4msg)]`; the theorem applied at the
delivery position 1 yields the append at position 0 and membership in the
resulting store. -/
theorem c4_persist_before_broadcast_witness :
    ∃ m, Frame.raw c4msg = Frame.raw m ∧
      [Event.append c4msg, Event.deliver "b" (.raw c4msg)].get? 0 =
        some (.append m) ∧
      0 < 1 ∧ m ∈ [c4msg] :=
  c4_persist_before_broadcast (.real true) .svc (fun _ => true) "m1" "u" 5
    "hi" "lobby" { id := "a", name := "Alice", avatar := none } .text [] []
    c4ws (.ok c4msg) [c4msg] c4ws
    [Event.append c4msg, Event.deliver "b" (.raw c4msg)] (by rfl) 1 "b"
    (.raw c4msg) (by rfl)

/-- A send oracle under which every socket accepts sends. -/
def allSendOk : Conn → Bool := fun _ => true

/-- Recognizer for `previous_messages` deliveries. -/
def isPrevEv : Event → Bool
  | .deliver _ (.previous_messages _) => true
  | _ => false

/-- Recognizer for chat `message` frame deliveries. -/
def isMessageEv : Event → Bool
  | .deliver _ (.message _) => true
  | _ => false

/-- Recognizer for `user_left` notice deliveries. -/
def isUserLeftEv : Event → Bool
  | .deliver _ (.user_left _ _) => true
  | _ => false

/-- Client A's endpoint session in the C1 scenario: join room "lobby"
(empty store) and send `{content: "hi"}`. -/
def c1runA : Session × List Message × List Event :=
  websocket_endpoint_session allSendOk 1 "A" "lobby" "alice" 0 "m1" "u1" []
    [Inbound.frame "hi" "text"]

/-- Client B's subsequent join in the C1 scenario (run against whatever
store A's session left behind — which C1 shows is still empty). -/
def c1joinB : Session × List Event :=
  websocket_endpoint_join allSendOk 2 "B" "lobby" "bob" 1

/-- Claim C1 evaluation (code bug): running the two-client scenario
through `websocket_endpoint` as written, client A never receives a
`previous_messages` frame (the history fetch raises `AttributeError` on
the unresolved `Depends` repository and is swallowed), A's
`{content:"hi"}` is never persisted (the store stays empty and the
session breaks out of its loop), and no `message` frame is delivered to
anyone — in particular B, whose own join also yields no
`previous_messages` frame; B could never see A's messages anyway because
each connection gets its own fresh `WebSocketService` registry. -/
theorem c1_two_client_scenario_eval :
    c1runA.2.2.filter isPrevEv = [] ∧
      c1runA.2.1 = [] ∧
      c1runA.2.2.filter isMessageEv = [] ∧
      c1joinB.2.filter isPrevEv = [] ∧
      c1joinB.2.filter isMessageEv = [] := by
  decide

/-- The C8 run: an established session for client "A" in room "lobby"
whose transport then disconnects (`receive_text` raises
`WebSocketDisconnect`). -/
def c8run : Session × List Message × List Event :=
  websocket_endpoint_session allSendOk 1 "A" "lobby" "alice" 0 "m1" "u1" []
    [Inbound.closed]

/-- Claim C8 evaluation (code bug): when a session terminates from inside
the receive loop — here a transport disconnect, caught by the loop's
`except Exception: break` (which shadows the outer
`except WebSocketDisconnect` handler) — the endpoint falls off the end of
its `try` block: no `user_left` notice is broadcast and the client is
NOT unregistered (it is still indexed in its session's registry). -/
theorem c8_termination_eval :
    c8run.2.2.filter isUserLeftEv = [] ∧
      dlookup c8run.1.ws.client_rooms "A" = some "lobby" := by
  decide

/-- A store message for the C6 evaluation, with creation time `i`. -/
def c6msg (i : Nat) : Message :=
  { id := "x", content := "m", room_name := "lobby",
    user := { id := "u", name := "U", avatar := none },
    message_type := .text, created_at := i, updated_at := i, metadata := [],
    is_edited := false, reply_to := none }

/-- A room history of 51 messages with creation times 0..50. -/
def c6store : List Message := (List.range 51).map c6msg

/-- Claim C6 evaluation (code bug): on a room with 51 messages the
history query used at join time (`sort("created_at", 1).skip(0).limit(50)`)
returns the OLDEST 50 messages (creation times 0..49) — the most recent
message (time 50) is not in the page, refuting "the last 50 messages".
(Independently, the endpoint wiring never delivers any
`previous_messages` frame at all, as the C1 evaluation shows.) -/
theorem c6_history_page_eval :
    (ChatRepository.get_messages_by_room c6store "lobby" 50 0).map
        (fun m => m.created_at) = List.range 50 := by
  decide

/-- A registry operation: `register` (a `connect` call, with its socket
handle) or `unregister` (a `disconnect` call). -/
inductive RegOp
  | reg (client_id room_name : String) (websocket : Conn)
  | unreg (client_id : String)
deriving DecidableEq, Repr

/-- Apply one registry operation. -/
def applyOp (st : WebSocketService.WSState) : RegOp → WebSocketService.WSState
  | .reg c r w => WebSocketService.connect st w c r
  | .unreg c => WebSocketService.disconnect st c

/-- Run a sequence of registry operations. -/
def runOps (st : WebSocketService.WSState) : List RegOp → WebSocketService.WSState
  | [] => st
  | op :: t => runOps (applyOp st op) t

/-- Mutual consistency of the two indices: every client in `client_rooms`
maps to a room whose `active_connections` entry contains it, and every
client listed under a room in `active_connections` maps back to that room
in `client_rooms`. -/
def Consistent (st : WebSocketService.WSState) : Prop :=
  (∀ c r, dlookup st.client_rooms c = some r →
    ∃ inner, dlookup st.active_connections r = some inner ∧
      (dlookup inner c).isSome) ∧
  (∀ r inner c, dlookup st.active_connections r = some inner →
    (dlookup inner c).isSome → dlookup st.client_rooms c = some r)

/-- Inductive invariant: consistency plus the fact that every registered
room name is non-empty (needed because `disconnect`'s Python truthiness
test `if room_name and ...` skips index cleanup for the room named `""`). -/
def GoodState (st : WebSocketService.WSState) : Prop :=
  Consistent st ∧ ∀ c r, dlookup st.client_rooms c = some r → r ≠ ""

/-- The side condition under which one operation preserves consistency: a
register call must use a non-empty room name and a client id that is not
currently registered in a different room. -/
def safeOp (st : WebSocketService.WSState) : RegOp → Bool
  | .reg c r _ =>
    (r != "") &&
      (match dlookup st.client_rooms c with
       | none => true
       | some r' => r' == r)
  | .unreg _ => true

/-- All operations of the sequence are safe at the states where they
execute. -/
def safeOps (st : WebSocketService.WSState) : List RegOp → Bool
  | [] => true
  | op :: t => safeOp st op && safeOps (applyOp st op) t

/-- `connect` preserves the registry invariant when the room name is
non-empty and the client is not currently registered elsewhere. -/
theorem connect_preserves (st : WebSocketService.WSState) (w : Conn)
    (c r : String) (hr : r ≠ "")
    (hc : dlookup st.client_rooms c = none ∨ dlookup st.client_rooms c = some r)
    (hst : GoodState st) :
    GoodState (WebSocketService.connect st w c r) := by
  obtain ⟨⟨h1, h2⟩, hne⟩ := hst
  have hacC : (WebSocketService.connect st w c r).active_connections =
      dinsert r (dinsert c w ((dlookup st.active_connections r).getD []))
        st.active_connections := rfl
  have hcrC : (WebSocketService.connect st w c r).client_rooms =
      dinsert c r st.client_rooms := rfl
  refine ⟨⟨?_, ?_⟩, ?_⟩
  · intro c' r' hcr
    rw [hcrC, dlookup_dinsert] at hcr
    rw [hacC]
    by_cases hcc : c' = c
    · rw [if_pos hcc] at hcr
      injection hcr with hrr
      refine ⟨dinsert c w ((dlookup st.active_connections r).getD []), ?_, ?_⟩
      · rw [← hrr, dlookup_dinsert, if_pos rfl]
      · rw [dlookup_dinsert, if_pos hcc]
        rfl
    · rw [if_neg hcc] at hcr
      obtain ⟨innerR, hinR, hsomeR⟩ := h1 c' r' hcr
      by_cases hrr : r' = r
      · subst hrr
        refine ⟨dinsert c w ((dlookup st.active_connections r').getD []), ?_, ?_⟩
        · rw [dlookup_dinsert, if_pos rfl]
        · rw [hinR, Option.getD_some, dlookup_dinsert, if_neg hcc]
          exact hsomeR
      · refine ⟨innerR, ?_, hsomeR⟩
        rw [dlookup_dinsert, if_neg hrr]
        exact hinR
  · intro r' inner' c' hac hsome
    rw [hacC, dlookup_dinsert] at hac
    rw [hcrC, dlookup_dinsert]
    by_cases hrr : r' = r
    · rw [if_pos hrr] at hac
      injection hac with hinner
      subst hinner
      rw [dlookup_dinsert] at hsome
      by_cases hcc : c' = c
      · rw [if_pos hcc]
        rw [hrr]
      · rw [if_neg hcc] at hsome
        rw [if_neg hcc]
        cases hacr : dlookup st.active_connections r with
        | none => rw [hacr] at hsome; simp [dlookup] at hsome
        | some innerR =>
          rw [hacr] at hsome
          simp only [Option.getD_some] at hsome
          rw [hrr]
          exact h2 r innerR c' hacr hsome
    · rw [if_neg hrr] at hac
      have hcr' := h2 r' inner' c' hac hsome
      by_cases hcc : c' = c
      · exfalso
        subst hcc
        rcases hc with hnone | hsome2
        · rw [hnone] at hcr'
          exact Option.noConfusion hcr'
        · rw [hsome2] at hcr'
          injection hcr' with he
          exact hrr he.symm
      · rw [if_neg hcc]
        exact hcr'
  · intro c' r' hcr
    rw [hcrC, dlookup_dinsert] at hcr
    by_cases hcc : c' = c
    · rw [if_pos hcc] at hcr
      injection hcr with hrr
      subst hrr
      exact hr
    · rw [if_neg hcc] at hcr
      exact hne c' r' hcr

/-- `disconnect` preserves the registry invariant unconditionally. -/
theorem disconnect_preserves (st : WebSocketService.WSState) (c : String)
    (hst : GoodState st) : GoodState (WebSocketService.disconnect st c) := by
  obtain ⟨⟨h1, h2⟩, hne⟩ := hst
  have hcrD : (WebSocketService.disconnect st c).client_rooms =
      derase c st.client_rooms := rfl
  cases hcr0 : dlookup st.client_rooms c with
  | none =>
    have hacD : (WebSocketService.disconnect st c).active_connections =
        st.active_connections := by
      simp only [WebSocketService.disconnect, hcr0]
    refine ⟨⟨?_, ?_⟩, ?_⟩
    · intro c' r' hcr
      rw [hcrD, dlookup_derase] at hcr
      rw [hacD]
      by_cases hcc : c' = c
      · rw [if_pos hcc] at hcr
        exact Option.noConfusion hcr
      · rw [if_neg hcc] at hcr
        exact h1 c' r' hcr
    · intro r' inner' c' hac hsome
      rw [hacD] at hac
      have hold := h2 r' inner' c' hac hsome
      rw [hcrD, dlookup_derase]
      by_cases hcc : c' = c
      · exfalso
        rw [hcc] at hold
        rw [hcr0] at hold
        exact Option.noConfusion hold
      · rw [if_neg hcc]
        exact hold
    · intro c' r' hcr
      rw [hcrD, dlookup_derase] at hcr
      by_cases hcc : c' = c
      · rw [if_pos hcc] at hcr
        exact Option.noConfusion hcr
      · rw [if_neg hcc] at hcr
        exact hne c' r' hcr
  | some room =>
    have hrne : room ≠ "" := hne c room hcr0
    obtain ⟨inner, hin, hcsome⟩ := h1 c room hcr0
    have hacD : (WebSocketService.disconnect st c).active_connections =
        (if (derase c inner).isEmpty then derase room st.active_connections
         else dinsert room (derase c inner) st.active_connections) := by
      simp only [WebSocketService.disconnect, hcr0, hin, ne_eq, hrne,
        not_false_eq_true, if_true]
    cases hemp : (derase c inner).isEmpty with
    | true =>
      have hnil : derase c inner = [] := by simpa using hemp
      rw [hemp, if_pos rfl] at hacD
      refine ⟨⟨?_, ?_⟩, ?_⟩
      · intro c' r' hcr
        rw [hcrD, dlookup_derase] at hcr
        by_cases hcc : c' = c
        · rw [if_pos hcc] at hcr
          exact Option.noConfusion hcr
        · rw [if_neg hcc] at hcr
          obtain ⟨innerR, hinR, hsomeR⟩ := h1 c' r' hcr
          by_cases hrr : r' = room
          · exfalso
            rw [hrr, hin] at hinR
            injection hinR with hE
            rw [← hE] at hsomeR
            have hl : dlookup (derase c inner) c' = dlookup inner c' := by
              rw [dlookup_derase, if_neg hcc]
            rw [hnil] at hl
            rw [← hl] at hsomeR
            simp [dlookup] at hsomeR
          · refine ⟨innerR, ?_, hsomeR⟩
            rw [hacD, dlookup_derase, if_neg hrr]
            exact hinR
      · intro r' inner' c' hac hsome
        rw [hacD, dlookup_derase] at hac
        by_cases hrr : r' = room
        · rw [if_pos hrr] at hac
          exact Option.noConfusion hac
        · rw [if_neg hrr] at hac
          have hold := h2 r' inner' c' hac hsome
          rw [hcrD, dlookup_derase]
          by_cases hcc : c' = c
          · exfalso
            rw [hcc] at hold
            rw [hcr0] at hold
            injection hold with hE
            exact hrr hE.symm
          · rw [if_neg hcc]
            exact hold
      · intro c' r' hcr
        rw [hcrD, dlookup_derase] at hcr
        by_cases hcc : c' = c
        · rw [if_pos hcc] at hcr
          exact Option.noConfusion hcr
        · rw [if_neg hcc] at hcr
          exact hne c' r' hcr
    | false =>
      rw [hemp, if_neg Bool.false_ne_true] at hacD
      refine ⟨⟨?_, ?_⟩, ?_⟩
      · intro c' r' hcr
        rw [hcrD, dlookup_derase] at hcr
        by_cases hcc : c' = c
        · rw [if_pos hcc] at hcr
          exact Option.noConfusion hcr
        · rw [if_neg hcc] at hcr
          obtain ⟨innerR, hinR, hsomeR⟩ := h1 c' r' hcr
          by_cases hrr : r' = room
          · refine ⟨derase c inner, ?_, ?_⟩
            · rw [hacD, dlookup_dinsert, if_pos hrr]
            · rw [dlookup_derase, if_neg hcc]
              rw [hrr, hin] at hinR
              injection hinR with hE
              rw [← hE] at hsomeR
              exact hsomeR
          · refine ⟨innerR, ?_, hsomeR⟩
            rw [hacD, dlookup_dinsert, if_neg hrr]
            exact hinR
      · intro r' inner' c' hac hsome
        rw [hacD, dlookup_dinsert] at hac
        rw [hcrD, dlookup_derase]
        by_cases hrr : r' = room
        · rw [if_pos hrr] at hac
          injection hac with hE
          rw [← hE] at hsome
          rw [dlookup_derase] at hsome
          by_cases hcc : c' = c
          · rw [if_pos hcc] at hsome
            simp at hsome
          · rw [if_neg hcc] at hsome
            have hold := h2 room inner c' hin hsome
            rw [if_neg hcc, hrr]
            exact hold
        · rw [if_neg hrr] at hac
          have hold := h2 r' inner' c' hac hsome
          by_cases hcc : c' = c
          · exfalso
            rw [hcc] at hold
            rw [hcr0] at hold
            injection hold with hE
            exact hrr hE.symm
          · rw [if_neg hcc]
            exact hold
      · intro c' r' hcr
        rw [hcrD, dlookup_derase] at hcr
        by_cases hcc : c' = c
        · rw [if_pos hcc] at hcr
          exact Option.noConfusion hcr
        · rw [if_neg hcc] at hcr
          exact hne c' r' hcr

/-- The empty registry satisfies the invariant. -/
theorem initState_good : GoodState WebSocketService.initState := by
  refine ⟨⟨?_, ?_⟩, ?_⟩
  · intro c r hcr
    simp [WebSocketService.initState, dlookup] at hcr
  · intro r inner c hac hsome
    simp [WebSocketService.initState, dlookup] at hac
  · intro c r hcr
    simp [WebSocketService.initState, dlookup] at hcr

/-- One safe operation preserves the invariant. -/
theorem safeOp_preserves (st : WebSocketService.WSState) (op : RegOp)
    (hst : GoodState st) (hop : safeOp st op = true) :
    GoodState (applyOp st op) := by
  cases op with
  | reg c r w =>
    simp only [safeOp, Bool.and_eq_true] at hop
    obtain ⟨hr, hmatch⟩ := hop
    have hr' : r ≠ "" := by simpa using hr
    have hc : dlookup st.client_rooms c = none ∨
        dlookup st.client_rooms c = some r := by
      cases hx : dlookup st.client_rooms c with
      | none => exact Or.inl rfl
      | some r0 =>
        simp only [hx] at hmatch
        have he : r0 = r := by simpa using hmatch
        exact Or.inr (by rw [he])
    exact connect_preserves st w c r hr' hc hst
  | unreg c => exact disconnect_preserves st c hst

/-- A safe sequence run from a good state lands in a good state. -/
theorem safeOps_run (ops : List RegOp) :
    ∀ st, GoodState st → safeOps st ops = true → GoodState (runOps st ops) := by
  induction ops with
  | nil => intro st h _; exact h
  | cons op t ih =>
    intro st h hsafe
    simp only [safeOps, Bool.and_eq_true] at hsafe
    exact ih (applyOp st op) (safeOp_preserves st op h hsafe.1) hsafe.2

/-- Claim C3 (amended): starting from the empty registry, after any
finite sequence of register/unregister operations in which every register
uses a non-empty room name and a client id not currently registered in a
different room, the two indices are mutually consistent.  (Without that
restriction the claim is false — see the counterexample: re-registering a
live client into a second room leaves the first room's entry dangling.) -/
theorem c3_registry_consistency (ops : List RegOp)
    (h : safeOps WebSocketService.initState ops = true) :
    Consistent (runOps WebSocketService.initState ops) :=
  (safeOps_run ops WebSocketService.initState initState_good h).1

/-- Witness for C3: a concrete safe sequence (two clients join room "r",
one leaves) whose final registry is consistent. -/
theorem c3_registry_consistency_witness :
    safeOps WebSocketService.initState
        [.reg "a" "r" 1, .reg "b" "r" 2, .unreg "a"] = true ∧
      Consistent (runOps WebSocketService.initState
        [.reg "a" "r" 1, .reg "b" "r" 2, .unreg "a"]) :=
  ⟨by decide, c3_registry_consistency [.reg "a" "r" 1, .reg "b" "r" 2, .unreg "a"]
    (by decide)⟩

/-- Claim C3 counterexample: the invariant as stated fails for the
two-operation sequence that registers client "c" in room "r1" and then —
without unregistering — registers it in room "r2": `connect` overwrites
`client_rooms["c"]` but leaves `active_connections["r1"]["c"]` behind, so
room "r1" lists a client that maps to "r2". -/
theorem c3_counterexample :
    ¬ Consistent (runOps WebSocketService.initState
        [.reg "c" "r1" 1, .reg "c" "r2" 2]) := by
  intro h
  have h2 := h.2 "r1" [("c", 1)] "c" (by decide) (by decide)
  exact absurd h2 (by decide)
